import Mathlib

/-!
Verification development for the hiero-json-rpc-relay request-resolution and
cost-metering core. The definitions below are a shallow embedding of:

* `packages/relay/src/lib/services/metricService/metricService.ts`
  (the metering pipeline: `captureTransactionMetrics`,
  `addExpenseAndCaptureMetrics`, `captureMetrics`,
  `getTransactionRecordMetrics`, and the metric-initialisation helpers);
* `packages/config-service/src/services/index.ts` (`validateReadOnlyMode`);
* `packages/relay/src/lib/types/events.ts` (the event payload shapes);
* the block/storage resolver behind `eth_getStorageAt`, which is exercised by
  `packages/relay/tests/lib/eth/eth_getStorageAt.spec.ts` but whose
  implementation is external to the sources at hand; it is modelled from the
  specification (sections 4.1, 4.2, 6 and 7).

Side effects (budget-enforcer calls, histogram observations, strategy
invocations, log lines) are made explicit as a trace of `Effect` values, and
asynchronous TypeScript methods become total Lean functions returning such
traces, so "completes without raising" is totality of the embedding and the
caught-exception path is the `Except.error` branch of the strategy result.
-/

/-- Per-call correlation data, from `events.ts` / the spec's data model:
`RequestDetails: {requestId: string, ipAddress: string}`. -/
structure RequestDetails where
  requestId : String
  ipAddress : String
deriving DecidableEq, Repr

/-- Modelled from the spec: `RequestDetails` is "formatted into a stable
log/correlation prefix"; the formatting function itself is outside the
sources at hand, so the exact shape of the string is a model choice and the
theorems depend only on it being a function of the request id. -/
def RequestDetails.formattedRequestId (rd : RequestDetails) : String :=
  "[Request ID: " ++ rd.requestId ++ "]"

/-- Payload of an `EXECUTE_TRANSACTION` event, from `events.ts`
(`IExecuteTransactionEventPayload`). -/
structure IExecuteTransactionEventPayload where
  transactionId : String
  callerName : String
  txConstructorName : String
  operatorAccountId : String
  interactingEntity : String
  requestDetails : RequestDetails
  originalCallerAddress : String
deriving DecidableEq, Repr

/-- Payload of an `EXECUTE_QUERY` event, from `events.ts`
(`IExecuteQueryEventPayload`); `originalCallerAddress` is
`string | undefined` in the source, hence `Option String`. -/
structure IExecuteQueryEventPayload where
  executionMode : String
  transactionId : String
  txConstructorName : String
  cost : Int
  gasUsed : Int
  status : String
  requestDetails : RequestDetails
  originalCallerAddress : Option String
deriving DecidableEq, Repr

/-- Modelled from the spec: `TransactionRecordMetric` =
`{gasUsed, transactionFee (tinybar-equivalent integer units),`
`txRecordChargeAmount, status}`; the concrete TypeScript interface
(`ITransactionRecordMetric`) lives outside the sources at hand. -/
structure ITransactionRecordMetric where
  gasUsed : Int
  transactionFee : Int
  txRecordChargeAmount : Int
  status : String
deriving DecidableEq, Repr

/-- Modelled from the spec: `executionMode ∈ {TRANSACTION, QUERY, RECORD}`;
the concrete values of `constants.EXECUTION_MODE` are outside the sources at
hand and only their distinctness matters. -/
def EXECUTION_MODE_TRANSACTION : String := "TRANSACTION"

/-- Modelled from the spec: the `QUERY` execution mode. -/
def EXECUTION_MODE_QUERY : String := "QUERY"

/-- Modelled from the spec: the `RECORD` execution mode. -/
def EXECUTION_MODE_RECORD : String := "RECORD"

/-- The two record-retrieval strategies of `getTransactionRecordMetrics`:
the consensus-submission (SDK) client and the mirror-node client. -/
inductive Strategy where
  | consensus
  | mirror
deriving DecidableEq, Repr

/-- Observable side effects of the metering pipeline, in program order:
strategy invocations, log lines, budget-enforcer `addExpense` calls and
histogram observations. -/
inductive Effect where
  | callStrategy (s : Strategy)
  | logDebug
  | logWarn (fmtReqId : String)
  | addExpense (cost : Int) (caller : String)
  | observeCost (mode ty st : String) (value : Int)
  | observeGas (mode ty st : String) (value : Int)
deriving DecidableEq, Repr

/-- Recognises budget-enforcer calls and histogram observations, the
"accounting" effects the spec's filtering invariant is about. -/
def Effect.isAccounting : Effect → Bool
  | .addExpense _ _ => true
  | .observeCost _ _ _ _ => true
  | .observeGas _ _ _ _ => true
  | _ => false

/-- Recognises strategy invocations. -/
def Effect.isCall : Effect → Bool
  | .callStrategy _ => true
  | _ => false

/-- `MetricService.captureMetrics` (metricService.ts lines 269-272): one
observation of `cost` into the cost histogram and one of `gas` into the
gas-fee histogram, both labelled `(mode, type, status)`. -/
def captureMetrics (mode ty st : String) (cost gas : Int) : List Effect :=
  [Effect.observeCost mode ty st cost, Effect.observeGas mode ty st gas]

/-- `MetricService.addExpenseAndCaptureMetrics` (metricService.ts lines
196-214): an optional debug log, then
`hbarLimitService.addExpense(cost, originalCallerAddress ?? '', ...)`, then
`captureMetrics`. `dbg` embeds `logger.isLevelEnabled('debug')`. -/
def addExpenseAndCaptureMetrics (dbg : Bool) (p : IExecuteQueryEventPayload) :
    List Effect :=
  (if dbg then [Effect.logDebug] else [])
    ++ [Effect.addExpense p.cost (p.originalCallerAddress.getD "")]
    ++ captureMetrics p.executionMode p.txConstructorName p.status p.cost p.gasUsed

/-- `MetricService.getTransactionRecordMetrics` (metricService.ts lines
285-316): `flag` embeds
`ConfigService.get('GET_RECORD_DEFAULT_TO_CONSENSUS_NODE')`; `sdk` and
`mirror` are the results the two clients would produce, `Except.error`
embedding a thrown exception. Exactly the strategy selected by `flag` is
invoked; a failure is caught, logged as a warning with the request
correlation prefix, and the call resolves to `none`. -/
def getTransactionRecordMetrics (flag : Bool)
    (sdk mirror : Except String ITransactionRecordMetric)
    (rd : RequestDetails) : Option ITransactionRecordMetric × List Effect :=
  match (if flag then sdk else mirror) with
  | .ok m =>
      (some m, [Effect.callStrategy (if flag then .consensus else .mirror)])
  | .error _ =>
      (none, [Effect.callStrategy (if flag then .consensus else .mirror),
              Effect.logWarn rd.formattedRequestId])

/-- `MetricService.captureTransactionMetrics` (metricService.ts lines
138-180): retrieve the record metrics; if absent, stop; if present, emit a
`TRANSACTION`-mode expense+metric call iff `transactionFee !== 0` (with the
retrieved `gasUsed`) and a `RECORD`-mode call iff `txRecordChargeAmount !== 0`
(with `gasUsed: 0`). -/
def captureTransactionMetrics (flag dbg : Bool)
    (sdk mirror : Except String ITransactionRecordMetric)
    (p : IExecuteTransactionEventPayload) : List Effect :=
  match getTransactionRecordMetrics flag sdk mirror p.requestDetails with
  | (none, eff) => eff
  | (some m, eff) =>
      eff
        ++ (if m.transactionFee ≠ 0 then
              addExpenseAndCaptureMetrics dbg
                { executionMode := EXECUTION_MODE_TRANSACTION,
                  transactionId := p.transactionId,
                  txConstructorName := p.txConstructorName,
                  cost := m.transactionFee,
                  gasUsed := m.gasUsed,
                  status := m.status,
                  requestDetails := p.requestDetails,
                  originalCallerAddress := some p.originalCallerAddress }
            else [])
        ++ (if m.txRecordChargeAmount ≠ 0 then
              addExpenseAndCaptureMetrics dbg
                { executionMode := EXECUTION_MODE_RECORD,
                  transactionId := p.transactionId,
                  txConstructorName := p.txConstructorName,
                  cost := m.txRecordChargeAmount,
                  gasUsed := 0,
                  status := m.status,
                  requestDetails := p.requestDetails,
                  originalCallerAddress := some p.originalCallerAddress }
            else [])

/-- The `EXECUTE_QUERY` subscription registered in the `MetricService`
constructor (metricService.ts lines 115-117): it forwards every published
`IExecuteQueryEventPayload` to `addExpenseAndCaptureMetrics`, with no
filtering of its own. -/
def onExecuteQuery (dbg : Bool) (p : IExecuteQueryEventPayload) : List Effect :=
  addExpenseAndCaptureMetrics dbg p

/-! ### Configuration validation (`packages/config-service/src/services/index.ts`) -/

/-- The slice of the environment read by `ConfigService.validateReadOnlyMode`
(index.ts lines 119-137): `READ_ONLY` (a boolean after type casting) and the
two operator credentials, each either unset (`none`) or set to a string;
`this.get(varName)` is falsy exactly when the variable is unset or empty. -/
structure Env where
  readOnly : Bool
  operatorIdMain : Option String
  operatorKeyMain : Option String
deriving DecidableEq, Repr

/-- JavaScript truthiness of an optional string configuration value:
`undefined` and the empty string are falsy. -/
def truthy : Option String → Bool
  | none => false
  | some s => !s.isEmpty

/-- `ConfigService.validateReadOnlyMode` (index.ts lines 119-137): in
`READ_ONLY` mode it only logs (never throws); otherwise it throws a
configuration error at the first falsy credential among
`OPERATOR_ID_MAIN`, `OPERATOR_KEY_MAIN`. -/
def validateReadOnlyMode (e : Env) : Except String Unit :=
  if e.readOnly then
    Except.ok ()
  else if !truthy e.operatorIdMain then
    Except.error
      "Configuration error: OPERATOR_ID_MAIN is mandatory for Relay operations in Read-Write mode."
  else if !truthy e.operatorKeyMain then
    Except.error
      "Configuration error: OPERATOR_KEY_MAIN is mandatory for Relay operations in Read-Write mode."
  else
    Except.ok ()

/-! ### Metric registration (`metricService.ts` lines 108-110 and 221-257) -/

/-- The two metric shapes the service registers. -/
inductive MetricKind where
  | histogram
  | counter
deriving DecidableEq, Repr

/-- The observable registration data of a prom-client metric: its name, help
text, label names and kind. -/
structure MetricDef where
  name : String
  help : String
  labelNames : List String
  kind : MetricKind
deriving DecidableEq, Repr

/-- A metrics registry, as the ordered list of metrics registered in it. -/
abbrev MetricRegistry := List MetricDef

/-- `Registry.removeSingleMetric(name)`: drops the metric registered under
`n`, if any. -/
def removeSingleMetric (r : MetricRegistry) (n : String) : MetricRegistry :=
  r.filter (fun m => m.name != n)

/-- Registration of a freshly constructed metric whose config lists the
registry (`registers: [register]`): prom-client throws on a duplicate name,
otherwise appends the metric. -/
def registerMetric (r : MetricRegistry) (m : MetricDef) :
    Except String MetricRegistry :=
  if r.any (fun x => x.name == m.name) then
    Except.error ("A metric with the name " ++ m.name ++ " has already been registered.")
  else
    Except.ok (r ++ [m])

/-- The cost histogram registered by `initCostMetric`
(metricService.ts lines 221-230). -/
def costMetricDef : MetricDef :=
  { name := "rpc_relay_consensusnode_response",
    help := "Relay consensusnode mode type status cost histogram",
    labelNames := ["mode", "type", "status"],
    kind := .histogram }

/-- The gas-fee histogram registered by `initGasMetric`
(metricService.ts lines 237-246). -/
def gasMetricDef : MetricDef :=
  { name := "rpc_relay_consensusnode_gasfee",
    help := "Relay consensusnode mode type status gas fee histogram",
    labelNames := ["mode", "type", "status"],
    kind := .histogram }

/-- The execution counter registered by `initEthCounter`
(metricService.ts lines 248-257). -/
def ethCounterDef : MetricDef :=
  { name := "rpc_relay_eth_executions",
    help := "Relay rpc_relay_eth_executions function",
    labelNames := ["method"],
    kind := .counter }

/-- `MetricService.initCostMetric` (metricService.ts lines 221-230):
remove any existing metric of that name, then register a fresh histogram. -/
def initCostMetric (r : MetricRegistry) : Except String MetricRegistry :=
  registerMetric (removeSingleMetric r "rpc_relay_consensusnode_response") costMetricDef

/-- `MetricService.initGasMetric` (metricService.ts lines 237-246). -/
def initGasMetric (r : MetricRegistry) : Except String MetricRegistry :=
  registerMetric (removeSingleMetric r "rpc_relay_consensusnode_gasfee") gasMetricDef

/-- `MetricService.initEthCounter` (metricService.ts lines 248-257). -/
def initEthCounter (r : MetricRegistry) : Except String MetricRegistry :=
  registerMetric (removeSingleMetric r "rpc_relay_eth_executions") ethCounterDef

/-- The registry-mutating part of the `MetricService` constructor
(metricService.ts lines 108-110): the three init calls in order. -/
def metricServiceConstruct (r : MetricRegistry) : Except String MetricRegistry :=
  match initCostMetric r with
  | .error e => .error e
  | .ok r1 =>
    match initGasMetric r1 with
    | .error e => .error e
    | .ok r2 => initEthCounter r2

/-! ### Block resolution and `eth_getStorageAt`

The implementation behind `eth_getStorageAt` is exercised by
`packages/relay/tests/lib/eth/eth_getStorageAt.spec.ts` but its code is
external to the sources at hand, so it is modelled from the specification
(sections 4.1, 4.2, 6 and 7) and checked against the behaviours those tests
pin down. -/

/-- Modelled from the spec: the named block tags. -/
inductive BlockTag where
  | latest
  | pending
  | earliest
  | safe
  | finalized
deriving DecidableEq, Repr

/-- Modelled from the spec: `BlockSpecifier`, "a tagged variant over
{Number, Hash, Tag}". -/
inductive BlockSpecifier where
  | number (n : Nat)
  | hash (h : String)
  | tag (t : BlockTag)
deriving DecidableEq, Repr

/-- Modelled from the spec: `ResolvedBlock` =
`{number, hash, timestampFrom, timestampTo}`. -/
structure ResolvedBlock where
  number : Nat
  hash : String
  timestampFrom : String
  timestampTo : String
deriving DecidableEq, Repr

/-- Modelled from the spec: a resolution outcome is either a concrete
`ResolvedBlock` or the explicit "unbounded" marker used for the named tags
that do not pin a timestamp window. -/
inductive Resolution where
  | bounded (b : ResolvedBlock)
  | unbounded
deriving DecidableEq, Repr

/-- Modelled from the spec: the only resolver failure relevant here, the
predefined `RESOURCE_NOT_FOUND` JSON-RPC error. -/
inductive RpcError where
  | resourceNotFound
deriving DecidableEq, Repr

/-- Modelled from the spec: a `{slot, value}` entry of the mirror's
contract-state endpoint, received verbatim. -/
structure ContractStateEntry where
  slot : String
  value : String
deriving DecidableEq, Repr

/-- Modelled from the spec: the two relevant response shapes of the state
endpoint — 404/contract-not-found, or 200 with a (possibly empty) entry
list ordered newest first. -/
inductive StateResponse where
  | notFound
  | entries (es : List ContractStateEntry)
deriving DecidableEq, Repr

/-- Modelled from the spec: the mirror-node backend as the core observes it:
block lookup by number, by hash, the genesis block for `earliest`, and the
contract-state endpoint keyed by address, optional upper timestamp bound and
the slot string exactly as it appears in the query. A `none` block is the
"null/empty body" outcome. -/
structure MirrorBackend where
  blockByNumber : Nat → Option ResolvedBlock
  blockByHash : String → Option ResolvedBlock
  earliestBlock : Option ResolvedBlock
  contractState : String → Option String → String → StateResponse

/-- Modelled from the spec (section 4.1): resolve a block specifier.
Numeric and hash specifiers issue one backend lookup and a null/empty body
becomes `RESOURCE_NOT_FOUND`; `latest`, `pending`, `safe` and `finalized`
yield the unbounded marker; `earliest` resolves to the genesis block. -/
def resolve (bk : MirrorBackend) : BlockSpecifier → Except RpcError Resolution
  | .number n =>
    match bk.blockByNumber n with
    | some blk => .ok (.bounded blk)
    | none => .error .resourceNotFound
  | .hash h =>
    match bk.blockByHash h with
    | some blk => .ok (.bounded blk)
    | none => .error .resourceNotFound
  | .tag .latest => .ok .unbounded
  | .tag .pending => .ok .unbounded
  | .tag .safe => .ok .unbounded
  | .tag .finalized => .ok .unbounded
  | .tag .earliest =>
    match bk.earliestBlock with
    | some blk => .ok (.bounded blk)
    | none => .error .resourceNotFound

/-- The timestamp filter a resolution contributes to the state query: the
upper bound for a bounded resolution, nothing for an unbounded one. -/
def resolutionTimestamp : Resolution → Option String
  | .bounded b => some b.timestampTo
  | .unbounded => none

/-- Modelled from the spec (sections 4.2 and 6): the state query issued
against `contracts/{address}/state` — optional `timestamp` upper bound, the
slot exactly as supplied, `limit=100`, `order=desc`. -/
structure StateQuery where
  address : String
  timestampTo : Option String
  slot : String
  limit : Nat
  order : String
deriving DecidableEq, Repr

/-- Modelled from the spec: the canonical 32-byte all-zero hex string
(`ZeroValue`). -/
def ZERO_HEX_32_BYTE : String :=
  "0x0000000000000000000000000000000000000000000000000000000000000000"

/-- Modelled from the spec (section 4.2): `eth_getStorageAt`. Resolve the
block specifier, propagating `RESOURCE_NOT_FOUND` without issuing any state
query; otherwise issue one state query (timestamp bound only when bounded,
slot exactly as supplied, `limit=100`, `order=desc`) and reduce the
response: 404 and an empty entry list both become `ZeroValue`, a non-empty
list yields the first entry's `value` unmodified. The first component of
the result is the list of state queries issued. -/
def getStorageAt (bk : MirrorBackend) (address slot : String)
    (bs : BlockSpecifier) : List StateQuery × Except RpcError String :=
  match resolve bk bs with
  | .error e => ([], .error e)
  | .ok r =>
    let q : StateQuery :=
      { address := address,
        timestampTo := resolutionTimestamp r,
        slot := slot,
        limit := 100,
        order := "desc" }
    match bk.contractState address (resolutionTimestamp r) slot with
    | .notFound => ([q], .ok ZERO_HEX_32_BYTE)
    | .entries [] => ([q], .ok ZERO_HEX_32_BYTE)
    | .entries (e :: _) => ([q], .ok e.value)

/-! ### Theorems -/

/-- Helper: the retrieval result when the chosen strategy succeeds. -/
lemma getRecord_ok (flag : Bool) (sdk mirror : Except String ITransactionRecordMetric)
    (rd : RequestDetails) (m : ITransactionRecordMetric)
    (h : (if flag then sdk else mirror) = .ok m) :
    getTransactionRecordMetrics flag sdk mirror rd
      = (some m, [Effect.callStrategy (if flag then .consensus else .mirror)]) := by
  simp [getTransactionRecordMetrics, h]

/-- Helper: the retrieval result when the chosen strategy fails. -/
lemma getRecord_error (flag : Bool) (sdk mirror : Except String ITransactionRecordMetric)
    (rd : RequestDetails) (msg : String)
    (h : (if flag then sdk else mirror) = .error msg) :
    getTransactionRecordMetrics flag sdk mirror rd
      = (none, [Effect.callStrategy (if flag then .consensus else .mirror),
                Effect.logWarn rd.formattedRequestId]) := by
  simp [getTransactionRecordMetrics, h]

/-- Helper: the full trace of `captureTransactionMetrics` when a record is
retrieved. -/
lemma capture_ok (flag dbg : Bool) (sdk mirror : Except String ITransactionRecordMetric)
    (p : IExecuteTransactionEventPayload) (m : ITransactionRecordMetric)
    (h : (if flag then sdk else mirror) = .ok m) :
    captureTransactionMetrics flag dbg sdk mirror p
      = [Effect.callStrategy (if flag then .consensus else .mirror)]
          ++ (if m.transactionFee ≠ 0 then
                addExpenseAndCaptureMetrics dbg
                  { executionMode := EXECUTION_MODE_TRANSACTION,
                    transactionId := p.transactionId,
                    txConstructorName := p.txConstructorName,
                    cost := m.transactionFee,
                    gasUsed := m.gasUsed,
                    status := m.status,
                    requestDetails := p.requestDetails,
                    originalCallerAddress := some p.originalCallerAddress }
              else [])
          ++ (if m.txRecordChargeAmount ≠ 0 then
                addExpenseAndCaptureMetrics dbg
                  { executionMode := EXECUTION_MODE_RECORD,
                    transactionId := p.transactionId,
                    txConstructorName := p.txConstructorName,
                    cost := m.txRecordChargeAmount,
                    gasUsed := 0,
                    status := m.status,
                    requestDetails := p.requestDetails,
                    originalCallerAddress := some p.originalCallerAddress }
              else []) := by
  unfold captureTransactionMetrics
  rw [getRecord_ok flag sdk mirror p.requestDetails m h]

/-- Helper: the full trace of `captureTransactionMetrics` when the chosen
strategy fails. -/
lemma capture_error (flag dbg : Bool) (sdk mirror : Except String ITransactionRecordMetric)
    (p : IExecuteTransactionEventPayload) (msg : String)
    (h : (if flag then sdk else mirror) = .error msg) :
    captureTransactionMetrics flag dbg sdk mirror p
      = [Effect.callStrategy (if flag then .consensus else .mirror),
         Effect.logWarn p.requestDetails.formattedRequestId] := by
  unfold captureTransactionMetrics
  rw [getRecord_error flag sdk mirror p.requestDetails msg h]

/-- Concrete record metric with a nonzero fee and no record charge, used by
witnesses. -/
def mFee5 : ITransactionRecordMetric :=
  { gasUsed := 7, transactionFee := 5, txRecordChargeAmount := 0, status := "SUCCESS" }

/-- Concrete record metric with both chargeable components nonzero, used by
witnesses. -/
def mBoth : ITransactionRecordMetric :=
  { gasUsed := 7, transactionFee := 5, txRecordChargeAmount := 3, status := "SUCCESS" }

/-- Concrete transaction-execution payload, used by witnesses. -/
def payT : IExecuteTransactionEventPayload :=
  { transactionId := "0.0.1001-1700000000-000000001",
    callerName := "eth_sendRawTransaction",
    txConstructorName := "EthereumTransaction",
    operatorAccountId := "0.0.1001",
    interactingEntity := "0x00000000000000000000000000000000000004d2",
    requestDetails := { requestId := "req-1", ipAddress := "127.0.0.1" },
    originalCallerAddress := "0xabc" }

/-- Concrete query-execution payload with cost 0, as published directly on
the event bus for a free read-only query. -/
def zeroCostPayload : IExecuteQueryEventPayload :=
  { executionMode := EXECUTION_MODE_QUERY,
    transactionId := "0.0.1001-1700000000-000000002",
    txConstructorName := "ContractCallQuery",
    cost := 0,
    gasUsed := 0,
    status := "SUCCESS",
    requestDetails := { requestId := "req-2", ipAddress := "127.0.0.1" },
    originalCallerAddress := none }

/-- C2: when the chosen record-retrieval strategy raises, the failure is
caught inside `getTransactionRecordMetrics` (the embedding's `error` branch),
logged as a warning with the request correlation prefix, the retrieval
resolves to absent (`none`), and `captureTransactionMetrics` completes (it is
a total function) with a trace containing no `addExpense` call and no
histogram observation. -/
theorem C2_retrieval_failure_isolated (flag dbg : Bool)
    (sdk mirror : Except String ITransactionRecordMetric)
    (p : IExecuteTransactionEventPayload) (msg : String)
    (h : (if flag then sdk else mirror) = .error msg) :
    getTransactionRecordMetrics flag sdk mirror p.requestDetails
      = (none, [Effect.callStrategy (if flag then .consensus else .mirror),
                Effect.logWarn p.requestDetails.formattedRequestId])
    ∧ captureTransactionMetrics flag dbg sdk mirror p
      = [Effect.callStrategy (if flag then .consensus else .mirror),
         Effect.logWarn p.requestDetails.formattedRequestId] :=
  ⟨getRecord_error flag sdk mirror p.requestDetails msg h,
   capture_error flag dbg sdk mirror p msg h⟩

/-- Witness for C2 at a concrete failing SDK strategy. -/
theorem C2_retrieval_failure_isolated_witness :
    captureTransactionMetrics true false (Except.error "timeout") (Except.ok mFee5) payT
      = [Effect.callStrategy .consensus,
         Effect.logWarn payT.requestDetails.formattedRequestId] :=
  (C2_retrieval_failure_isolated true false (Except.error "timeout") (Except.ok mFee5)
    payT "timeout" rfl).2

/-- C3: when a record is retrieved, the two chargeable components are
evaluated independently: the trace carries the TRANSACTION-mode cost
observation (value `transactionFee`) and its gas observation (value the
retrieved `gasUsed`) iff `transactionFee` is nonzero, and the RECORD-mode
cost observation (value `txRecordChargeAmount`) and its gas observation
(value `0`) iff `txRecordChargeAmount` is nonzero. -/
theorem C3_two_chargeable_components (flag dbg : Bool)
    (sdk mirror : Except String ITransactionRecordMetric)
    (p : IExecuteTransactionEventPayload) (m : ITransactionRecordMetric)
    (h : (if flag then sdk else mirror) = .ok m) :
    (Effect.observeCost EXECUTION_MODE_TRANSACTION p.txConstructorName m.status
        m.transactionFee ∈ captureTransactionMetrics flag dbg sdk mirror p
      ↔ m.transactionFee ≠ 0)
    ∧ (Effect.observeGas EXECUTION_MODE_TRANSACTION p.txConstructorName m.status
        m.gasUsed ∈ captureTransactionMetrics flag dbg sdk mirror p
      ↔ m.transactionFee ≠ 0)
    ∧ (Effect.observeCost EXECUTION_MODE_RECORD p.txConstructorName m.status
        m.txRecordChargeAmount ∈ captureTransactionMetrics flag dbg sdk mirror p
      ↔ m.txRecordChargeAmount ≠ 0)
    ∧ (Effect.observeGas EXECUTION_MODE_RECORD p.txConstructorName m.status
        0 ∈ captureTransactionMetrics flag dbg sdk mirror p
      ↔ m.txRecordChargeAmount ≠ 0) := by
  rw [capture_ok flag dbg sdk mirror p m h]
  by_cases hf : m.transactionFee = 0 <;> by_cases hc : m.txRecordChargeAmount = 0 <;>
    cases dbg <;>
      simp [hf, hc, addExpenseAndCaptureMetrics, captureMetrics,
        EXECUTION_MODE_TRANSACTION, EXECUTION_MODE_RECORD]

/-- Witness for C3 at a concrete retrieved record with both components
nonzero. -/
theorem C3_two_chargeable_components_witness :
    Effect.observeCost EXECUTION_MODE_TRANSACTION payT.txConstructorName mBoth.status
      mBoth.transactionFee
      ∈ captureTransactionMetrics true false (Except.ok mBoth) (Except.ok mBoth) payT :=
  ((C3_two_chargeable_components true false (Except.ok mBoth) (Except.ok mBoth)
    payT mBoth rfl).1).mpr (by decide)

/-- C1 counterexample: a `QueryExecuted` event with cost 0 published
directly on the event bus IS forwarded by the `EXECUTE_QUERY` handler to the
budget enforcer (`addExpense 0 ""`) and observed into the cost histogram,
refuting the claim that cost-0 events never reach them. -/
theorem C1_counterexample :
    Effect.addExpense 0 "" ∈ onExecuteQuery false zeroCostPayload
    ∧ Effect.observeCost EXECUTION_MODE_QUERY "ContractCallQuery" "SUCCESS" 0
        ∈ onExecuteQuery false zeroCostPayload := by
  constructor <;>
    simp [onExecuteQuery, addExpenseAndCaptureMetrics, captureMetrics, zeroCostPayload,
      EXECUTION_MODE_QUERY]

/-- C1 (amended): emissions synthesized by `captureTransactionMetrics` never
carry a zero cost — every `addExpense` call and every cost-histogram
observation in its trace has a nonzero value, because zero-valued
`transactionFee` / `txRecordChargeAmount` components are filtered; but a
`QueryExecuted` event published directly on the event bus is forwarded to
the budget enforcer and the cost histogram unconditionally, whatever its
cost (including 0). -/
theorem C1_zero_cost_filtering :
    (∀ (flag dbg : Bool) (sdk mirror : Except String ITransactionRecordMetric)
        (p : IExecuteTransactionEventPayload) (c : Int) (a : String),
        Effect.addExpense c a ∈ captureTransactionMetrics flag dbg sdk mirror p →
        c ≠ 0)
    ∧ (∀ (flag dbg : Bool) (sdk mirror : Except String ITransactionRecordMetric)
        (p : IExecuteTransactionEventPayload) (mo ty st : String) (v : Int),
        Effect.observeCost mo ty st v ∈ captureTransactionMetrics flag dbg sdk mirror p →
        v ≠ 0)
    ∧ (∀ (dbg : Bool) (p : IExecuteQueryEventPayload),
        Effect.addExpense p.cost (p.originalCallerAddress.getD "")
            ∈ onExecuteQuery dbg p
        ∧ Effect.observeCost p.executionMode p.txConstructorName p.status p.cost
            ∈ onExecuteQuery dbg p) := by
  refine ⟨?_, ?_, ?_⟩
  · intro flag dbg sdk mirror p c a hmem
    rcases hch : (if flag then sdk else mirror) with msg | m
    · rw [capture_error flag dbg sdk mirror p msg hch] at hmem
      simp at hmem
    · rw [capture_ok flag dbg sdk mirror p m hch] at hmem
      by_cases hf : m.transactionFee = 0 <;> by_cases hc : m.txRecordChargeAmount = 0 <;>
        cases dbg <;>
          simp [hf, hc, addExpenseAndCaptureMetrics, captureMetrics] at hmem <;>
            omega
  · intro flag dbg sdk mirror p mo ty st v hmem
    rcases hch : (if flag then sdk else mirror) with msg | m
    · rw [capture_error flag dbg sdk mirror p msg hch] at hmem
      simp at hmem
    · rw [capture_ok flag dbg sdk mirror p m hch] at hmem
      by_cases hf : m.transactionFee = 0 <;> by_cases hc : m.txRecordChargeAmount = 0 <;>
        cases dbg <;>
          simp [hf, hc, addExpenseAndCaptureMetrics, captureMetrics] at hmem <;>
            omega
  · intro dbg p
    cases dbg <;>
      simp [onExecuteQuery, addExpenseAndCaptureMetrics, captureMetrics]

/-- Witness for C1 (amended): the filtering part applied to a concrete trace
containing `addExpense 5 "0xabc"` (so 5 ≠ 0), and the unconditional
bus-forwarding part at the concrete cost-0 payload. -/
theorem C1_zero_cost_filtering_witness :
    (5 : Int) ≠ 0 ∧ Effect.addExpense 0 "" ∈ onExecuteQuery false zeroCostPayload :=
  ⟨C1_zero_cost_filtering.1 true false (Except.ok mBoth) (Except.ok mBoth) payT 5 "0xabc"
      (by decide),
   (C1_zero_cost_filtering.2.2 false zeroCostPayload).1⟩

/-- C7: every call to `getTransactionRecordMetrics` invokes exactly one of
the two retrieval strategies — the consensus-submission (SDK) client when
the configuration switch is true, the mirror-node client when it is false —
and this holds whether the chosen strategy succeeds or fails, so on failure
the other strategy is never invoked (no merge, no automatic fallback). -/
theorem C7_exactly_one_strategy (flag : Bool)
    (sdk mirror : Except String ITransactionRecordMetric) (rd : RequestDetails) :
    (getTransactionRecordMetrics flag sdk mirror rd).2.filter Effect.isCall
      = [Effect.callStrategy (if flag then .consensus else .mirror)] := by
  cases flag <;> cases sdk <;> cases mirror <;>
    simp [getTransactionRecordMetrics, Effect.isCall]

/-- C8: for every `QueryExecuted`-shaped payload processed by
`addExpenseAndCaptureMetrics`, the accounting effects are exactly: one
`addExpense` of `cost` keyed by `originalCallerAddress` (empty string when
absent), followed by exactly one observation of `cost` into the cost
histogram and exactly one observation of `gasUsed` into the gas-fee
histogram, both labelled `(executionMode, txConstructorName, status)`. -/
theorem C8_expense_then_single_observations (dbg : Bool)
    (p : IExecuteQueryEventPayload) :
    (addExpenseAndCaptureMetrics dbg p).filter Effect.isAccounting
      = [Effect.addExpense p.cost (p.originalCallerAddress.getD ""),
         Effect.observeCost p.executionMode p.txConstructorName p.status p.cost,
         Effect.observeGas p.executionMode p.txConstructorName p.status p.gasUsed] := by
  cases dbg <;> simp [addExpenseAndCaptureMetrics, captureMetrics, Effect.isAccounting]

/-- Concrete resolved block used by witnesses (shape as in the test
fixtures: a bounded timestamp window). -/
def blkA : ResolvedBlock :=
  { number := 3,
    hash := "0x3c08bbbee74d287b1dcd3f0ca6d1d2cb92c90883c4acf9747de9f3f3162ad25b",
    timestampFrom := "1651560386.060890886",
    timestampTo := "1651560389.060890949" }

/-- Concrete storage entry used by witnesses. -/
def entryV : ContractStateEntry :=
  { slot := "0x101",
    value := "0x0000000000000000000000000000000000000000000000000000000000000abc" }

/-- Backend whose block lookups return a null/empty body. -/
def bNoBlock : MirrorBackend :=
  { blockByNumber := fun _ => none,
    blockByHash := fun _ => none,
    earliestBlock := none,
    contractState := fun _ _ _ => .notFound }

/-- Backend that resolves blocks but whose state endpoint answers
404/contract-not-found. -/
def bStateNotFound : MirrorBackend :=
  { blockByNumber := fun _ => some blkA,
    blockByHash := fun _ => some blkA,
    earliestBlock := some blkA,
    contractState := fun _ _ _ => .notFound }

/-- Backend that resolves blocks but whose state endpoint answers 200 with
an empty entry list. -/
def bStateEmpty : MirrorBackend :=
  { blockByNumber := fun _ => some blkA,
    blockByHash := fun _ => some blkA,
    earliestBlock := some blkA,
    contractState := fun _ _ _ => .entries [] }

/-- Backend that resolves blocks and whose state endpoint answers with one
matching entry. -/
def bStateEntry : MirrorBackend :=
  { blockByNumber := fun _ => some blkA,
    blockByHash := fun _ => some blkA,
    earliestBlock := some blkA,
    contractState := fun _ _ _ => .entries [entryV] }

/-- Helper: the behaviour of `getStorageAt` once the block resolves. -/
lemma getStorageAt_ok (bk : MirrorBackend) (address slot : String)
    (bs : BlockSpecifier) (r : Resolution) (h : resolve bk bs = .ok r) :
    getStorageAt bk address slot bs
      = ([{ address := address, timestampTo := resolutionTimestamp r,
            slot := slot, limit := 100, order := "desc" }],
         match bk.contractState address (resolutionTimestamp r) slot with
         | .notFound => .ok ZERO_HEX_32_BYTE
         | .entries [] => .ok ZERO_HEX_32_BYTE
         | .entries (e :: _) => .ok e.value) := by
  unfold getStorageAt
  rw [h]
  rcases hcs : bk.contractState address (resolutionTimestamp r) slot with _ | (_ | ⟨e, rest⟩) <;>
    simp [hcs]

/-- C4: a block lookup returning an empty/null body makes `getStorageAt`
fail with the predefined `RESOURCE_NOT_FOUND` error without issuing any
state query, and `getStorageAt` fails only when block resolution fails. -/
theorem C4_resource_not_found_only_on_block_resolution :
    (∀ (bk : MirrorBackend) (address slot : String) (bs : BlockSpecifier),
        resolve bk bs = .error .resourceNotFound →
        getStorageAt bk address slot bs = ([], .error .resourceNotFound))
    ∧ (∀ (bk : MirrorBackend) (address slot : String) (bs : BlockSpecifier)
        (e : RpcError),
        (getStorageAt bk address slot bs).2 = .error e →
        resolve bk bs = .error .resourceNotFound)
    ∧ (∀ (bk : MirrorBackend) (n : Nat) (address slot : String),
        bk.blockByNumber n = none →
        getStorageAt bk address slot (.number n) = ([], .error .resourceNotFound)) := by
  refine ⟨?_, ?_, ?_⟩
  · intro bk address slot bs h
    simp [getStorageAt, h]
  · intro bk address slot bs e h
    rcases hr : resolve bk bs with err | r
    · cases err
      rfl
    · exfalso
      rw [getStorageAt_ok bk address slot bs r hr] at h
      rcases hcs : bk.contractState address (resolutionTimestamp r) slot with _ | es
      · rw [hcs] at h
        simp at h
      · rw [hcs] at h
        cases es <;> simp at h
  · intro bk n address slot h
    simp [getStorageAt, resolve, h]

/-- Witness for C4 at a backend whose block lookup returns a null body. -/
theorem C4_resource_not_found_witness :
    getStorageAt bNoBlock "0x000000000000000000000000000000000000055f" "0x101" (.number 5)
      = ([], .error .resourceNotFound) :=
  C4_resource_not_found_only_on_block_resolution.2.2 bNoBlock 5
    "0x000000000000000000000000000000000000055f" "0x101" rfl

/-- C5: with the block resolved, a 404/contract-not-found answer from the
state endpoint and a 200 answer with an empty entry list both make
`getStorageAt` return the identical canonical 32-byte all-zero hex string. -/
theorem C5_zero_value_convergence :
    (∀ (bk : MirrorBackend) (address slot : String) (bs : BlockSpecifier)
        (r : Resolution),
        resolve bk bs = .ok r →
        bk.contractState address (resolutionTimestamp r) slot = .notFound →
        (getStorageAt bk address slot bs).2 = .ok ZERO_HEX_32_BYTE)
    ∧ (∀ (bk : MirrorBackend) (address slot : String) (bs : BlockSpecifier)
        (r : Resolution),
        resolve bk bs = .ok r →
        bk.contractState address (resolutionTimestamp r) slot = .entries [] →
        (getStorageAt bk address slot bs).2 = .ok ZERO_HEX_32_BYTE) := by
  constructor <;>
    · intro bk address slot bs r h1 h2
      rw [getStorageAt_ok bk address slot bs r h1]
      simp [h2]

/-- Witness for C5: the two backend outcomes at the same concrete call both
produce the all-zero word. -/
theorem C5_zero_value_convergence_witness :
    (getStorageAt bStateNotFound "0x000000000000000000000000000000000000055f" "0x101"
        (.number 3)).2 = .ok ZERO_HEX_32_BYTE
    ∧ (getStorageAt bStateEmpty "0x000000000000000000000000000000000000055f" "0x101"
        (.number 3)).2 = .ok ZERO_HEX_32_BYTE :=
  ⟨C5_zero_value_convergence.1 bStateNotFound
      "0x000000000000000000000000000000000000055f" "0x101" (.number 3)
      (.bounded blkA) rfl rfl,
   C5_zero_value_convergence.2 bStateEmpty
      "0x000000000000000000000000000000000000055f" "0x101" (.number 3)
      (.bounded blkA) rfl rfl⟩

/-- C6: whatever slot string the caller supplies (short, short with leading
zeros, fully padded — the statement holds for every string), the single
state query issued carries that slot exactly as supplied, with the resolved
timestamp bound, `limit=100` and `order=desc`; and when the backend returns
at least one entry the result is the first entry's `value` field
unchanged. -/
theorem C6_slot_passthrough :
    (∀ (bk : MirrorBackend) (address slot : String) (bs : BlockSpecifier)
        (r : Resolution),
        resolve bk bs = .ok r →
        (getStorageAt bk address slot bs).1
          = [{ address := address, timestampTo := resolutionTimestamp r,
               slot := slot, limit := 100, order := "desc" }])
    ∧ (∀ (bk : MirrorBackend) (address slot : String) (bs : BlockSpecifier)
        (r : Resolution) (e : ContractStateEntry) (rest : List ContractStateEntry),
        resolve bk bs = .ok r →
        bk.contractState address (resolutionTimestamp r) slot = .entries (e :: rest) →
        (getStorageAt bk address slot bs).2 = .ok e.value) := by
  constructor
  · intro bk address slot bs r h
    rw [getStorageAt_ok bk address slot bs r h]
  · intro bk address slot bs r e rest h1 h2
    rw [getStorageAt_ok bk address slot bs r h1]
    simp [h2]

/-- Witness for C6 at a concrete unbounded (`latest`) resolution and a
one-entry backend answer. -/
theorem C6_slot_passthrough_witness :
    (getStorageAt bStateEntry "0x000000000000000000000000000000000000055f" "0x0000101"
        (.tag .latest)).1
      = [{ address := "0x000000000000000000000000000000000000055f", timestampTo := none,
           slot := "0x0000101", limit := 100, order := "desc" }]
    ∧ (getStorageAt bStateEntry "0x000000000000000000000000000000000000055f" "0x0000101"
        (.tag .latest)).2 = .ok entryV.value :=
  ⟨C6_slot_passthrough.1 bStateEntry "0x000000000000000000000000000000000000055f"
      "0x0000101" (.tag .latest) .unbounded rfl,
   C6_slot_passthrough.2 bStateEntry "0x000000000000000000000000000000000000055f"
      "0x0000101" (.tag .latest) .unbounded entryV [] rfl rfl⟩

/-- Registry entries surviving the three `removeSingleMetric` calls of the
`MetricService` constructor: everything not named like one of its three
metrics, in order. -/
def cleanseRelayMetrics (r : MetricRegistry) : MetricRegistry :=
  ((r.filter (fun m => m.name != "rpc_relay_consensusnode_response")).filter
      (fun m => m.name != "rpc_relay_consensusnode_gasfee")).filter
    (fun m => m.name != "rpc_relay_eth_executions")

/-- Helper: `initCostMetric` always succeeds, appending the cost histogram
after dropping any metric of the same name. -/
lemma initCost_eq (r : MetricRegistry) :
    initCostMetric r
      = .ok (r.filter (fun m => m.name != "rpc_relay_consensusnode_response")
              ++ [costMetricDef]) := by
  simp [initCostMetric, registerMetric, removeSingleMetric, costMetricDef,
    List.any_eq_true]

/-- Helper: `initGasMetric` always succeeds. -/
lemma initGas_eq (r : MetricRegistry) :
    initGasMetric r
      = .ok (r.filter (fun m => m.name != "rpc_relay_consensusnode_gasfee")
              ++ [gasMetricDef]) := by
  simp [initGasMetric, registerMetric, removeSingleMetric, gasMetricDef,
    List.any_eq_true]

/-- Helper: `initEthCounter` always succeeds. -/
lemma initEth_eq (r : MetricRegistry) :
    initEthCounter r
      = .ok (r.filter (fun m => m.name != "rpc_relay_eth_executions")
              ++ [ethCounterDef]) := by
  simp [initEthCounter, registerMetric, removeSingleMetric, ethCounterDef,
    List.any_eq_true]

/-- Helper: the constructor's overall effect on any registry. -/
lemma construct_eq (r : MetricRegistry) :
    metricServiceConstruct r
      = .ok (cleanseRelayMetrics r ++ [costMetricDef, gasMetricDef, ethCounterDef]) := by
  simp [metricServiceConstruct, initCost_eq, initGas_eq, initEth_eq,
    cleanseRelayMetrics, List.filter_append, costMetricDef, gasMetricDef, ethCounterDef]

/-- Helper: cleansing distributes over append. -/
lemma cleanse_append (r s : MetricRegistry) :
    cleanseRelayMetrics (r ++ s) = cleanseRelayMetrics r ++ cleanseRelayMetrics s := by
  simp [cleanseRelayMetrics, List.filter_append]

/-- Helper: cleansing is idempotent. -/
lemma cleanse_idem (r : MetricRegistry) :
    cleanseRelayMetrics (cleanseRelayMetrics r) = cleanseRelayMetrics r := by
  simp only [cleanseRelayMetrics, List.filter_filter]
  apply List.filter_congr
  intro a _
  cases h1 : a.name != "rpc_relay_consensusnode_response" <;>
    cases h2 : a.name != "rpc_relay_consensusnode_gasfee" <;>
      cases h3 : a.name != "rpc_relay_eth_executions" <;>
        simp [h1, h2, h3]

/-- Helper: the three fresh metric definitions are all cleansed away. -/
lemma cleanse_defs :
    cleanseRelayMetrics [costMetricDef, gasMetricDef, ethCounterDef] = [] := by
  decide

/-- Helper: no cleansed entry carries one of the three reserved names. -/
lemma cleanse_countP_zero (r : MetricRegistry) (n : String)
    (hn : n = "rpc_relay_consensusnode_response" ∨ n = "rpc_relay_consensusnode_gasfee"
      ∨ n = "rpc_relay_eth_executions") :
    (cleanseRelayMetrics r).countP (fun m => m.name == n) = 0 := by
  rw [List.countP_eq_zero]
  intro a ha
  simp [cleanseRelayMetrics, List.mem_filter] at ha
  rcases hn with h | h | h <;> subst h <;> simp_all

/-- C10: constructing a `MetricService` over any registry (in particular one
already containing metrics named `rpc_relay_consensusnode_response`,
`rpc_relay_consensusnode_gasfee` or `rpc_relay_eth_executions`) removes each
same-named metric before re-registering, never fails with a
duplicate-registration error, leaves exactly one metric per name in the
registry, and running the constructor again on the resulting registry
returns that registry unchanged. -/
theorem C10_registration_idempotent (r : MetricRegistry) :
    metricServiceConstruct r
      = .ok (cleanseRelayMetrics r ++ [costMetricDef, gasMetricDef, ethCounterDef])
    ∧ (cleanseRelayMetrics r ++ [costMetricDef, gasMetricDef, ethCounterDef]).countP
        (fun m => m.name == "rpc_relay_consensusnode_response") = 1
    ∧ (cleanseRelayMetrics r ++ [costMetricDef, gasMetricDef, ethCounterDef]).countP
        (fun m => m.name == "rpc_relay_consensusnode_gasfee") = 1
    ∧ (cleanseRelayMetrics r ++ [costMetricDef, gasMetricDef, ethCounterDef]).countP
        (fun m => m.name == "rpc_relay_eth_executions") = 1
    ∧ metricServiceConstruct
        (cleanseRelayMetrics r ++ [costMetricDef, gasMetricDef, ethCounterDef])
      = .ok (cleanseRelayMetrics r ++ [costMetricDef, gasMetricDef, ethCounterDef]) := by
  refine ⟨construct_eq r, ?_, ?_, ?_, ?_⟩
  · rw [List.countP_append, cleanse_countP_zero r _ (Or.inl rfl)]
    decide
  · rw [List.countP_append, cleanse_countP_zero r _ (Or.inr (Or.inl rfl))]
    decide
  · rw [List.countP_append, cleanse_countP_zero r _ (Or.inr (Or.inr rfl))]
    decide
  · rw [construct_eq, cleanse_append, cleanse_idem, cleanse_defs, List.append_nil]

/-- C9: `validateReadOnlyMode` throws exactly when the process is in
read-write mode (`READ_ONLY` false) and `OPERATOR_ID_MAIN` or
`OPERATOR_KEY_MAIN` is absent (falsy); in read-only mode absent credentials
never abort startup. -/
theorem C9_readonly_validation (e : Env) :
    (∃ msg, validateReadOnlyMode e = .error msg) ↔
      (e.readOnly = false
        ∧ (truthy e.operatorIdMain = false ∨ truthy e.operatorKeyMain = false)) := by
  rcases e with ⟨ro, oid, okey⟩
  cases ro <;> cases h1 : truthy oid <;> cases h2 : truthy okey <;>
    simp [validateReadOnlyMode, h1, h2]
